import Mathlib

/-!
# ida_header.h: declarations and calling-convention annotations

`ida_header.h` is a list of C declarations in the dialect of a disassembler's
local-types parser: scalar typedefs, three anonymous structs bound to typedef
names, and five `__usercall` prototypes whose return value and parameters carry
`@<...>` register locations.

The file has no function bodies, so the embedding is the declaration list
itself (`ida_header.header`, one entry per declaration, in file order) together
with the functions that read it: typedef resolution, the filters that pick the
struct and prototype declarations, the register sets of a prototype and the
struct layout rule of the C ABI under a data model given as a parameter.
-/

namespace CDecl

/-- The C types that occur in the header. `named` is a use of a typedef name. -/
inductive CType where
  | void
  | char
  | longLong
  | unsignedLongLong
  | named (name : String)
  | ptr (pointee : CType)
deriving DecidableEq

/-- One member of a struct: `ty name;`. -/
structure Field where
  ty : CType
  name : String
deriving DecidableEq

/-- A general-purpose register `Xn`. -/
inductive Reg where
  | X (n : Nat)
deriving DecidableEq

/-- The number of a register. -/
def Reg.index : Reg → Nat
  | .X n => n

/-- A location `@<...>`: the registers in the order written, so `@<X1:X0>` is
`[X 1, X 0]` and `@<X0>` is `[X 0]`. -/
abbrev RegLoc := List Reg

/-- One parameter of a prototype: `ty name@<loc>`; `loc` is `none` when the
parameter has no `@<...>`. -/
structure Param where
  ty : CType
  name : String
  loc : Option RegLoc
deriving DecidableEq

/-- A function declaration
`ret __usercall __spoils<...> name@<retLoc>(params) body`.
`spoils` is the register list of `__spoils<...>` (`none` when the attribute is
absent), `retLoc` is `none` when the name has no `@<...>`, and `body` is `none`
when the declaration ends in `;` instead of a compound statement. -/
structure FuncDecl where
  ret : CType
  usercall : Bool
  spoils : Option (List Reg)
  name : String
  retLoc : Option RegLoc
  params : List Param
  body : Option (List String)
deriving DecidableEq

/-- A top-level declaration of the header. -/
inductive Decl where
  | typedefAlias (ty : CType) (name : String)
  | typedefStruct (fields : List Field) (name : String)
  | func (f : FuncDecl)
deriving DecidableEq

/-- The typedef name a declaration introduces, if it is a typedef. -/
def Decl.typeName : Decl → Option String
  | .typedefAlias _ n => some n
  | .typedefStruct _ n => some n
  | .func _ => none

/-- The prototypes of a declaration list, in order. -/
def functions (ds : List Decl) : List FuncDecl :=
  ds.filterMap fun d => match d with
    | .func f => some f
    | _ => none

/-- The struct declarations of a declaration list, in order, as
(typedef name, fields). -/
def structs (ds : List Decl) : List (String × List Field) :=
  ds.filterMap fun d => match d with
    | .typedefStruct fs n => some (n, fs)
    | _ => none

/-- The scalar typedefs (`typedef T name;` with `T` not a struct body). -/
def aliases (ds : List Decl) : List (String × CType) :=
  ds.filterMap fun d => match d with
    | .typedefAlias t n => some (n, t)
    | _ => none

/-- The typedef names declared, in order. -/
def typeNames (ds : List Decl) : List String :=
  ds.filterMap Decl.typeName

/-- The prototype with the given name. -/
def findFunc (ds : List Decl) (name : String) : Option FuncDecl :=
  (functions ds).find? fun f => f.name == name

/-- What a type denotes once typedef names are looked up. -/
inductive Resolved where
  | void
  | char
  | longLong
  | unsignedLongLong
  | ptr (pointee : CType)
  | struct (name : String) (fields : List Field)
deriving DecidableEq

/-- Resolve a type against the declarations that precede its use. The
environment lists them latest first: C looks a typedef name up among the
declarations already seen, and the body of that typedef is resolved against
the declarations before it. -/
def resolveIn : List Decl → CType → Option Resolved
  | _, .void => some .void
  | _, .char => some .char
  | _, .longLong => some .longLong
  | _, .unsignedLongLong => some .unsignedLongLong
  | _, .ptr t => some (.ptr t)
  | [], .named _ => none
  | .typedefAlias t m :: env, .named n =>
      if m = n then resolveIn env t else resolveIn env (.named n)
  | .typedefStruct fs m :: env, .named n =>
      if m = n then some (.struct m fs) else resolveIn env (.named n)
  | .func _ :: env, .named n => resolveIn env (.named n)

/-- Resolve a type at the end of the header (all declarations visible). -/
def resolve (ds : List Decl) (t : CType) : Option Resolved :=
  resolveIn ds.reverse t

/-- Signedness of a resolved integer type (`none` for non-integers; plain
`char` has no fixed signedness). -/
def Resolved.signed : Resolved → Option Bool
  | .longLong => some true
  | .unsignedLongLong => some false
  | _ => none

/-- The target's data model: size and alignment, in bytes, of the scalar
types, and the width of a general-purpose register. The header does not fix
these; they belong to the ABI of the binary it describes. -/
structure DataModel where
  charSize : Nat
  longLongSize : Nat
  longLongAlign : Nat
  ptrSize : Nat
  ptrAlign : Nat
  regSize : Nat
deriving DecidableEq

/-- The 64-bit model of the AArch64 targets that have registers `X0`..`X30`:
`long long` and pointers are 8 bytes, 8-byte aligned; X registers hold 8
bytes. -/
def lp64 : DataModel := ⟨1, 8, 8, 8, 8, 8⟩

/-- Round `off` up to a multiple of `a`. -/
def alignUp (off a : Nat) : Nat :=
  (off + a - 1) / a * a

/-- The C layout rule over members given as (size, alignment): each member is
placed at the next offset that is a multiple of its alignment. Returns the
member offsets, the end of the last member and the largest alignment. -/
def layoutFields : List (Nat × Nat) → Nat → Nat → List Nat × Nat × Nat
  | [], off, al => ([], off, al)
  | (sz, a) :: rest, off, al =>
      let o := alignUp off a
      let r := layoutFields rest (o + sz) (max al a)
      (o :: r.1, r.2.1, r.2.2)

/-- Size and alignment of a struct from its members' (size, alignment): the
size is the end of the last member rounded up to the struct's alignment. -/
def structSizeAlign (ms : List (Nat × Nat)) : Nat × Nat :=
  let r := layoutFields ms 0 1
  (alignUp r.2.1 r.2.2, r.2.2)

/-- Collect a list of optional values; `none` if any is `none`. -/
def allSome {α : Type} : List (Option α) → Option (List α)
  | [] => some []
  | none :: _ => none
  | some a :: rest => (allSome rest).map (a :: ·)

/-- Size and alignment (`sizeof`, `_Alignof`) of a type, resolved against the
declarations that precede it (latest first). `void` and unknown names have
none. -/
def sizeAlignIn (dm : DataModel) : List Decl → CType → Option (Nat × Nat)
  | _, .void => none
  | _, .char => some (dm.charSize, dm.charSize)
  | _, .longLong => some (dm.longLongSize, dm.longLongAlign)
  | _, .unsignedLongLong => some (dm.longLongSize, dm.longLongAlign)
  | _, .ptr _ => some (dm.ptrSize, dm.ptrAlign)
  | [], .named _ => none
  | .typedefAlias t m :: env, .named n =>
      if m = n then sizeAlignIn dm env t else sizeAlignIn dm env (.named n)
  | .typedefStruct fs m :: env, .named n =>
      if m = n then
        (allSome (fs.map fun f => sizeAlignIn dm env f.ty)).map structSizeAlign
      else sizeAlignIn dm env (.named n)
  | .func _ :: env, .named n => sizeAlignIn dm env (.named n)

/-- The `sizeof` of a type at the end of the header. -/
def sizeof (dm : DataModel) (ds : List Decl) (t : CType) : Option Nat :=
  (sizeAlignIn dm ds.reverse t).map Prod.fst

/-- Width in bits of a type (8-bit bytes). -/
def bitWidth (dm : DataModel) (ds : List Decl) (t : CType) : Option Nat :=
  (sizeof dm ds t).map (8 * ·)

/-- Byte offsets of the members of a struct, in declaration order. -/
def fieldOffsets (dm : DataModel) (ds : List Decl) (fs : List Field) :
    Option (List Nat) :=
  (allSome (fs.map fun f => sizeAlignIn dm ds.reverse f.ty)).map
    fun ms => (layoutFields ms 0 1).1

/-- Every value a prototype places somewhere: the return value (when the
return type is not `void`) and each parameter, as (type, location). -/
def placements (f : FuncDecl) : List (CType × Option RegLoc) :=
  (if f.ret = .void then [] else [(f.ret, f.retLoc)]) ++
    f.params.map fun p => (p.ty, p.loc)

/-- The registers a prototype assigns to its parameters, parameter by
parameter in order (a parameter without location contributes none). -/
def paramRegs (f : FuncDecl) : List Reg :=
  f.params.flatMap fun p => p.loc.getD []

/-- The type is a struct passed by value (after typedef resolution). -/
def isStructType (ds : List Decl) (t : CType) : Bool :=
  match resolve ds t with
  | some (.struct _ _) => true
  | _ => false

/-- The type resolves to the struct declared under the given typedef name. -/
def isStructNamed (ds : List Decl) (t : CType) (name : String) : Bool :=
  match resolve ds t with
  | some (.struct n _) => n == name
  | _ => false

end CDecl

namespace ida_header

open CDecl

/-- Line 1: `typedef long long s64;` -/
def s64 : Decl := .typedefAlias .longLong "s64"

/-- Line 2: `typedef unsigned long long u64;` -/
def u64 : Decl := .typedefAlias .unsignedLongLong "u64"

/-- Line 4: `typedef s64 Int;` -/
def Int : Decl := .typedefAlias (.named "s64") "Int"

/-- Line 5: `typedef u64 Bool;` -/
def Bool : Decl := .typedefAlias (.named "u64") "Bool"

/-- Lines 7-10: `typedef struct { s64 length; char *ptr; } String;` -/
def String : Decl :=
  .typedefStruct
    [ ⟨.named "s64", "length"⟩,
      ⟨.ptr .char, "ptr"⟩ ]
    "String"

/-- Lines 12-17:
`typedef struct { s64 intValue; char *ptr; u64 unknown; s64 type; } Any;` -/
def Any : Decl :=
  .typedefStruct
    [ ⟨.named "s64", "intValue"⟩,
      ⟨.ptr .char, "ptr"⟩,
      ⟨.named "u64", "unknown"⟩,
      ⟨.named "s64", "type"⟩ ]
    "Any"

/-- Lines 19-22: `typedef struct { s64 length; Any *items; } ArrayAny;` -/
def ArrayAny : Decl :=
  .typedefStruct
    [ ⟨.named "s64", "length"⟩,
      ⟨.ptr (.named "Any"), "items"⟩ ]
    "ArrayAny"

/-- Line 26:
`String __usercall __spoils<> String_init__builtinStringLiteral_utf8CodeUnitCount_isASCII__@<X1:X0>(char *_builtinStringLiteral@<X0>, u64 utf8CodeUnitCount@<X1>, u64 isASCII@<X2>);` -/
def String_init__builtinStringLiteral_utf8CodeUnitCount_isASCII__ : FuncDecl :=
  ⟨.named "String", true, some [],
    "String_init__builtinStringLiteral_utf8CodeUnitCount_isASCII__",
    some [.X 1, .X 0],
    [ ⟨.ptr .char, "_builtinStringLiteral", some [.X 0]⟩,
      ⟨.named "u64", "utf8CodeUnitCount", some [.X 1]⟩,
      ⟨.named "u64", "isASCII", some [.X 2]⟩ ],
    none⟩

/-- Line 29:
`ArrayAny __usercall __spoils<> _allocateUninitializedArray_A_____@<X1:X0>();` -/
def _allocateUninitializedArray_A_____ : FuncDecl :=
  ⟨.named "ArrayAny", true, some [],
    "_allocateUninitializedArray_A_____",
    some [.X 1, .X 0], [], none⟩

/-- Line 32:
`String __usercall __spoils<> default_argument_1_of_print___separator_terminator__@<X1:X0>();` -/
def default_argument_1_of_print___separator_terminator__ : FuncDecl :=
  ⟨.named "String", true, some [],
    "default_argument_1_of_print___separator_terminator__",
    some [.X 1, .X 0], [], none⟩

/-- Line 35:
`String __usercall __spoils<> default_argument_2_of_print___separator_terminator__@<X1:X0>();` -/
def default_argument_2_of_print___separator_terminator__ : FuncDecl :=
  ⟨.named "String", true, some [],
    "default_argument_2_of_print___separator_terminator__",
    some [.X 1, .X 0], [], none⟩

/-- Line 38:
`void __usercall __spoils<> print___separator_terminator__(ArrayAny *items@<X0>, String separator@<X2:X1>, String terminator@<X4:X3>);` -/
def print___separator_terminator__ : FuncDecl :=
  ⟨.void, true, some [],
    "print___separator_terminator__",
    none,
    [ ⟨.ptr (.named "ArrayAny"), "items", some [.X 0]⟩,
      ⟨.named "String", "separator", some [.X 2, .X 1]⟩,
      ⟨.named "String", "terminator", some [.X 4, .X 3]⟩ ],
    none⟩

/-- The header: every declaration of `ida_header.h`, in file order. -/
def header : List Decl :=
  [ s64, u64, Int, Bool, String, Any, ArrayAny,
    .func String_init__builtinStringLiteral_utf8CodeUnitCount_isASCII__,
    .func _allocateUninitializedArray_A_____,
    .func default_argument_1_of_print___separator_terminator__,
    .func default_argument_2_of_print___separator_terminator__,
    .func print___separator_terminator__ ]

end ida_header

open CDecl

/-! ## Struct declarations -/

/-- C1: `String` is declared as a struct with exactly two members, in order
`length` of type `s64` and `ptr` of type `char *`; `s64` resolves to the
signed type `long long`, which is 64 bits wide when `long long` is 8 bytes;
and with 8-byte, 8-byte-aligned `long long` and pointers, `length` is at byte
offset 0 (the first word) and `ptr` at byte offset 8 (the second word). -/
theorem String_is_length_then_ptr (dm : DataModel)
    (hll : dm.longLongSize = 8) (hla : dm.longLongAlign = 8)
    (hpa : dm.ptrAlign = 8) :
    List.lookup "String" (structs ida_header.header)
        = some [⟨.named "s64", "length"⟩, ⟨.ptr .char, "ptr"⟩]
      ∧ resolve ida_header.header (.named "s64") = some .longLong
      ∧ Resolved.signed .longLong = some true
      ∧ bitWidth dm ida_header.header (.named "s64") = some 64
      ∧ resolve ida_header.header (.ptr .char) = some (.ptr .char)
      ∧ fieldOffsets dm ida_header.header
          [⟨.named "s64", "length"⟩, ⟨.ptr .char, "ptr"⟩] = some [0, 8] := by
  obtain ⟨c, l, la, p, pa, r⟩ := dm
  simp only at hll hla hpa
  subst hll hla hpa
  exact ⟨by decide, by decide, rfl, rfl, rfl, by with_unfolding_all rfl⟩

/-- Witness of C1 at the 64-bit data model `lp64`. -/
theorem String_is_length_then_ptr_witness :
    lp64.longLongSize = 8 ∧ lp64.longLongAlign = 8 ∧ lp64.ptrAlign = 8
      ∧ bitWidth lp64 ida_header.header (.named "s64") = some 64
      ∧ fieldOffsets lp64 ida_header.header
          [⟨.named "s64", "length"⟩, ⟨.ptr .char, "ptr"⟩] = some [0, 8] :=
  have h := String_is_length_then_ptr lp64 rfl rfl rfl
  ⟨rfl, rfl, rfl, h.2.2.2.1, h.2.2.2.2.2⟩

/-- C2: `Any` is declared as a struct with exactly four members, in order
`intValue` of type `s64`, `ptr` of type `char *`, `unknown` of type `u64` and
`type` of type `s64`; `s64` is the signed and `u64` the unsigned `long long`,
both 64 bits wide when `long long` is 8 bytes; and the discriminant `type` is
the last member (index 3), not the first. -/
theorem Any_has_four_fields_type_last (dm : DataModel)
    (hll : dm.longLongSize = 8) :
    List.lookup "Any" (structs ida_header.header)
        = some [⟨.named "s64", "intValue"⟩, ⟨.ptr .char, "ptr"⟩,
                ⟨.named "u64", "unknown"⟩, ⟨.named "s64", "type"⟩]
      ∧ (List.lookup "Any" (structs ida_header.header)).map List.length = some 4
      ∧ resolve ida_header.header (.named "s64") = some .longLong
      ∧ Resolved.signed .longLong = some true
      ∧ resolve ida_header.header (.named "u64") = some .unsignedLongLong
      ∧ Resolved.signed .unsignedLongLong = some false
      ∧ bitWidth dm ida_header.header (.named "s64") = some 64
      ∧ bitWidth dm ida_header.header (.named "u64") = some 64
      ∧ (List.lookup "Any" (structs ida_header.header)).bind List.getLast?
          = some ⟨.named "s64", "type"⟩
      ∧ (List.lookup "Any" (structs ida_header.header)).bind List.head?
          = some ⟨.named "s64", "intValue"⟩
      ∧ (List.lookup "Any" (structs ida_header.header)).map
          (fun fs => (fs.map Field.name).indexOf "type") = some 3 := by
  obtain ⟨c, l, la, p, pa, r⟩ := dm
  simp only at hll
  subst hll
  exact ⟨by decide, by decide, by decide, rfl, by decide, rfl, rfl, rfl,
    by decide, by decide, by decide⟩

/-- Witness of C2 at the 64-bit data model `lp64`. -/
theorem Any_has_four_fields_type_last_witness :
    lp64.longLongSize = 8
      ∧ bitWidth lp64 ida_header.header (.named "s64") = some 64
      ∧ bitWidth lp64 ida_header.header (.named "u64") = some 64
      ∧ (List.lookup "Any" (structs ida_header.header)).bind List.getLast?
          = some ⟨.named "s64", "type"⟩ :=
  have h := Any_has_four_fields_type_last lp64 rfl
  ⟨rfl, h.2.2.2.2.2.2.1, h.2.2.2.2.2.2.2.1, h.2.2.2.2.2.2.2.2.1⟩

/-- C3: `ArrayAny` is declared as a struct with exactly two members, in order
`length` of type `s64` (signed, 64 bits wide when `long long` is 8 bytes) and
`items` of type `Any *`: one level of pointer whose pointee is the typedef
name `Any`, which resolves to the four-member struct `Any` itself (not to a
pointer). -/
theorem ArrayAny_is_length_then_items (dm : DataModel)
    (hll : dm.longLongSize = 8) :
    List.lookup "ArrayAny" (structs ida_header.header)
        = some [⟨.named "s64", "length"⟩, ⟨.ptr (.named "Any"), "items"⟩]
      ∧ (List.lookup "ArrayAny" (structs ida_header.header)).map List.length
          = some 2
      ∧ resolve ida_header.header (.named "s64") = some .longLong
      ∧ Resolved.signed .longLong = some true
      ∧ bitWidth dm ida_header.header (.named "s64") = some 64
      ∧ resolve ida_header.header (.ptr (.named "Any"))
          = some (.ptr (.named "Any"))
      ∧ resolve ida_header.header (.named "Any")
          = some (.struct "Any"
              [⟨.named "s64", "intValue"⟩, ⟨.ptr .char, "ptr"⟩,
               ⟨.named "u64", "unknown"⟩, ⟨.named "s64", "type"⟩])
      ∧ isStructNamed ida_header.header (.named "Any") "Any" = true := by
  obtain ⟨c, l, la, p, pa, r⟩ := dm
  simp only at hll
  subst hll
  exact ⟨by decide, by decide, by decide, rfl, rfl, rfl, by decide, by decide⟩

/-- Witness of C3 at the 64-bit data model `lp64`. -/
theorem ArrayAny_is_length_then_items_witness :
    lp64.longLongSize = 8
      ∧ bitWidth lp64 ida_header.header (.named "s64") = some 64
      ∧ isStructNamed ida_header.header (.named "Any") "Any" = true :=
  have h := ArrayAny_is_length_then_items lp64 rfl
  ⟨rfl, h.2.2.2.2.1, h.2.2.2.2.2.2.2⟩

/-! ## Prototypes -/

/-- C4: the prototypes with a non-`void` return type are exactly the `String`
initialiser, `_allocateUninitializedArray` and the two default-argument thunks
of `print`; each of them has its return value at `@<X1:X0>`; and the `String`
initialiser has exactly the parameters `_builtinStringLiteral`,
`utf8CodeUnitCount`, `isASCII`, in that order, at `@<X0>`, `@<X1>`, `@<X2>`. -/
theorem returns_in_X1_X0_and_String_init_args :
    ((functions ida_header.header).filter fun f => f.ret ≠ .void).map
        FuncDecl.name
        = [ "String_init__builtinStringLiteral_utf8CodeUnitCount_isASCII__",
            "_allocateUninitializedArray_A_____",
            "default_argument_1_of_print___separator_terminator__",
            "default_argument_2_of_print___separator_terminator__" ]
      ∧ (∀ f ∈ functions ida_header.header,
          f.ret ≠ .void → f.retLoc = some [.X 1, .X 0])
      ∧ (findFunc ida_header.header
          "String_init__builtinStringLiteral_utf8CodeUnitCount_isASCII__").map
          (fun f => f.params.map fun q => (q.name, q.loc))
          = some [ ("_builtinStringLiteral", some [.X 0]),
                   ("utf8CodeUnitCount", some [.X 1]),
                   ("isASCII", some [.X 2]) ] := by
  decide

/-- C5 fails as stated: the header does not have four prototypes. -/
theorem prototype_count_is_not_four :
    ¬ (functions ida_header.header).length = 4 := by
  decide

/-- C5, amended: the header declares exactly five function prototypes (the
`String` initialiser, `_allocateUninitializedArray`, the two default-argument
thunks of `print`, and `print`), and every declaration of the header is either
one of these or one of its seven typedefs. -/
theorem prototype_count_is_five :
    (functions ida_header.header).length = 5
      ∧ (functions ida_header.header).map FuncDecl.name
        = [ "String_init__builtinStringLiteral_utf8CodeUnitCount_isASCII__",
            "_allocateUninitializedArray_A_____",
            "default_argument_1_of_print___separator_terminator__",
            "default_argument_2_of_print___separator_terminator__",
            "print___separator_terminator__" ]
      ∧ ida_header.header.length
        = (typeNames ida_header.header).length
          + (functions ida_header.header).length := by
  decide

/-- C6 fails as stated: the header does not declare four structs, and `Int`
is not declared as a struct. -/
theorem struct_count_is_not_four_and_Int_is_no_struct :
    ¬ ((structs ida_header.header).length = 4
        ∧ ∀ n ∈ ["Int", "Bool", "String", "Any", "ArrayAny"],
            isStructType ida_header.header (.named n) = true) := by
  decide

/-- C6, amended: the header declares exactly three struct layouts, `String`,
`Any` and `ArrayAny`; `Int`, `Bool`, `String`, `Any` and `ArrayAny` are all
declared type names; `String`, `Any` and `ArrayAny` are struct types, while
`Int` and `Bool` are scalar typedefs, of `s64` (`long long`) and of `u64`
(`unsigned long long`). -/
theorem three_structs_and_two_scalar_aliases :
    (structs ida_header.header).map Prod.fst = ["String", "Any", "ArrayAny"]
      ∧ (∀ n ∈ ["Int", "Bool", "String", "Any", "ArrayAny"],
          n ∈ typeNames ida_header.header)
      ∧ (∀ n ∈ ["String", "Any", "ArrayAny"],
          isStructType ida_header.header (.named n) = true)
      ∧ List.lookup "Int" (aliases ida_header.header) = some (.named "s64")
      ∧ List.lookup "Bool" (aliases ida_header.header) = some (.named "u64")
      ∧ resolve ida_header.header (.named "Int") = some .longLong
      ∧ resolve ida_header.header (.named "Bool") = some .unsignedLongLong
      ∧ isStructType ida_header.header (.named "Int") = false
      ∧ isStructType ida_header.header (.named "Bool") = false := by
  decide

/-- C7: every function declaration of the header ends in `;` (it has no
body); every one with a non-`void` return type has a register location for
the return value, and every parameter of every one has a register location
(each location names at least one register). -/
theorem prototypes_only_and_fully_annotated :
    ∀ f ∈ functions ida_header.header,
      f.body = none
        ∧ (f.ret ≠ .void → ∃ loc, f.retLoc = some loc ∧ loc ≠ [])
        ∧ ∀ q ∈ f.params, ∃ loc, q.loc = some loc ∧ loc ≠ [] := by
  decide

/-- Witness of C7 at `print___separator_terminator__`, the one prototype with
a `void` return type: it is a prototype of the header, has no body, and each
of its three parameters has a register location. -/
theorem prototypes_only_and_fully_annotated_witness :
    ida_header.print___separator_terminator__ ∈ functions ida_header.header
      ∧ ida_header.print___separator_terminator__.body = none
      ∧ ida_header.print___separator_terminator__.params.length = 3
      ∧ ∀ q ∈ ida_header.print___separator_terminator__.params,
          ∃ loc, q.loc = some loc ∧ loc ≠ [] :=
  have h := prototypes_only_and_fully_annotated
    ida_header.print___separator_terminator__ (by decide)
  ⟨by decide, h.1, rfl, h.2.2⟩

/-- C9: `print___separator_terminator__` has exactly the parameters `items`
(an `ArrayAny *`, one register, `X0`), `separator` (a `String`, two registers,
`X2:X1`) and `terminator` (a `String`, two registers, `X4:X3`); no register
occurs twice among them, no two of the three locations share a register, and
a register `Xn` is one of them exactly when `n < 5`; and in every prototype of
the header no register is assigned twice among the parameters. -/
theorem print_args_cover_X0_to_X4_disjointly :
    (findFunc ida_header.header "print___separator_terminator__").map
        (fun f => f.params.map fun q => (q.name, q.ty, q.loc))
        = some [ ("items", .ptr (.named "ArrayAny"), some [.X 0]),
                 ("separator", .named "String", some [.X 2, .X 1]),
                 ("terminator", .named "String", some [.X 4, .X 3]) ]
      ∧ resolve ida_header.header (.ptr (.named "ArrayAny"))
          = some (.ptr (.named "ArrayAny"))
      ∧ isStructNamed ida_header.header (.named "String") "String" = true
      ∧ (paramRegs ida_header.print___separator_terminator__).Nodup
      ∧ List.Pairwise (fun a b : RegLoc => ∀ r ∈ a, r ∉ b)
          (ida_header.print___separator_terminator__.params.map
            fun q => q.loc.getD [])
      ∧ (∀ n : Nat,
          Reg.X n ∈ paramRegs ida_header.print___separator_terminator__
            ↔ n < 5)
      ∧ ∀ f ∈ functions ida_header.header,
          (paramRegs f).Nodup
            ∧ List.Pairwise (fun a b : RegLoc => ∀ r ∈ a, r ∉ b)
                (f.params.map fun q => q.loc.getD []) := by
  refine ⟨by decide, by decide, by decide, by decide, by decide, ?_, by decide⟩
  intro n
  have hregs : paramRegs ida_header.print___separator_terminator__
      = [.X 0, .X 2, .X 1, .X 4, .X 3] := by decide
  rw [hregs]
  simp only [List.mem_cons, Reg.X.injEq, List.mem_singleton, List.not_mem_nil,
    or_false]
  omega

/-! ## Sizes -/

/-- C8: when `long long` and pointers are 8 bytes and 8-byte aligned and a
register holds 8 bytes, every struct of the header has size 8 times its number
of members, with the members at offsets 0, 8, 16, ... (no padding): `String`
is 16 bytes, `ArrayAny` 16 bytes and `Any` 32 bytes. Every value of struct
type that a prototype places (as return value or parameter) is a `String` or
an `ArrayAny`, sits in a location of exactly two registers, and its size is
the 16 bytes those two registers hold; the locations used are `X1:X0`,
`X2:X1` and `X4:X3`; and no prototype places an `Any` by value. -/
theorem struct_sizes_fill_register_pairs (dm : DataModel)
    (hll : dm.longLongSize = 8) (hla : dm.longLongAlign = 8)
    (hps : dm.ptrSize = 8) (hpa : dm.ptrAlign = 8) (hrs : dm.regSize = 8) :
    (∀ s ∈ structs ida_header.header,
        sizeof dm ida_header.header (.named s.1) = some (8 * s.2.length)
          ∧ s.2.map (fun f => sizeof dm ida_header.header f.ty)
              = List.replicate s.2.length (some 8)
          ∧ fieldOffsets dm ida_header.header s.2
              = some ((List.range s.2.length).map (8 * ·)))
      ∧ sizeof dm ida_header.header (.named "String") = some 16
      ∧ sizeof dm ida_header.header (.named "ArrayAny") = some 16
      ∧ sizeof dm ida_header.header (.named "Any") = some 32
      ∧ (∀ f ∈ functions ida_header.header, ∀ v ∈ placements f,
          isStructType ida_header.header v.1 = true →
            (isStructNamed ida_header.header v.1 "String" = true
              ∨ isStructNamed ida_header.header v.1 "ArrayAny" = true)
            ∧ ∃ loc, v.2 = some loc ∧ loc.length = 2
                ∧ sizeof dm ida_header.header v.1
                    = some (loc.length * dm.regSize)
                ∧ loc.length * dm.regSize = 16)
      ∧ ((functions ida_header.header).flatMap fun f =>
            ((placements f).filter fun v =>
              isStructType ida_header.header v.1).map Prod.snd).dedup
          = [some [.X 1, .X 0], some [.X 2, .X 1], some [.X 4, .X 3]]
      ∧ ∀ f ∈ functions ida_header.header, ∀ v ∈ placements f,
          isStructNamed ida_header.header v.1 "Any" = false := by
  obtain ⟨c, l, la, p, pa, r⟩ := dm
  simp only at hll hla hps hpa hrs
  subst hll hla hps hpa hrs
  have hString : sizeof ⟨c, 8, 8, 8, 8, 8⟩ ida_header.header (.named "String")
      = some 16 := by
    simp [sizeof, fieldOffsets, sizeAlignIn, ida_header.header,
      ida_header.s64, ida_header.u64, ida_header.Int, ida_header.Bool,
      ida_header.String, ida_header.Any, ida_header.ArrayAny, structSizeAlign,
      layoutFields, alignUp, allSome, List.range, List.range.loop,
      List.replicate]
  have hArray : sizeof ⟨c, 8, 8, 8, 8, 8⟩ ida_header.header (.named "ArrayAny")
      = some 16 := by
    simp [sizeof, fieldOffsets, sizeAlignIn, ida_header.header,
      ida_header.s64, ida_header.u64, ida_header.Int, ida_header.Bool,
      ida_header.String, ida_header.Any, ida_header.ArrayAny, structSizeAlign,
      layoutFields, alignUp, allSome, List.range, List.range.loop,
      List.replicate]
  have hAny : sizeof ⟨c, 8, 8, 8, 8, 8⟩ ida_header.header (.named "Any")
      = some 32 := by
    simp [sizeof, fieldOffsets, sizeAlignIn, ida_header.header,
      ida_header.s64, ida_header.u64, ida_header.Int, ida_header.Bool,
      ida_header.String, ida_header.Any, ida_header.ArrayAny, structSizeAlign,
      layoutFields, alignUp, allSome, List.range, List.range.loop,
      List.replicate]
  refine ⟨?_, hString, hArray, hAny, ?_, by decide, by decide⟩
  · intro s hs
    have hcases : ∀ t ∈ structs ida_header.header,
        t = ("String", [⟨.named "s64", "length"⟩, ⟨.ptr .char, "ptr"⟩])
          ∨ t = ("Any", [⟨.named "s64", "intValue"⟩, ⟨.ptr .char, "ptr"⟩,
                  ⟨.named "u64", "unknown"⟩, ⟨.named "s64", "type"⟩])
          ∨ t = ("ArrayAny", [⟨.named "s64", "length"⟩,
                  ⟨.ptr (.named "Any"), "items"⟩]) := by decide
    rcases hcases s hs with h | h | h <;> subst h <;>
    simp [sizeof, fieldOffsets, sizeAlignIn, ida_header.header,
      ida_header.s64, ida_header.u64, ida_header.Int, ida_header.Bool,
      ida_header.String, ida_header.Any, ida_header.ArrayAny, structSizeAlign,
      layoutFields, alignUp, allSome, List.range, List.range.loop,
      List.replicate]
  · intro f hf v hv hstruct
    have hshape : ∀ g ∈ functions ida_header.header, ∀ w ∈ placements g,
        isStructType ida_header.header w.1 = true →
          (w.1 = .named "String" ∨ w.1 = .named "ArrayAny")
            ∧ ∃ loc, w.2 = some loc ∧ loc.length = 2 := by decide
    obtain ⟨hty, loc, hloc, hlen⟩ := hshape f hf v hv hstruct
    rcases hty with h | h
    · refine ⟨Or.inl (by rw [h]; decide), loc, hloc, hlen, ?_, by rw [hlen]; rfl⟩
      rw [h, hlen]; exact hString
    · refine ⟨Or.inr (by rw [h]; decide), loc, hloc, hlen, ?_, by rw [hlen]; rfl⟩
      rw [h, hlen]; exact hArray

/-- Witness of C8 at the 64-bit data model `lp64`. -/
theorem struct_sizes_fill_register_pairs_witness :
    lp64.longLongSize = 8 ∧ lp64.longLongAlign = 8 ∧ lp64.ptrSize = 8
      ∧ lp64.ptrAlign = 8 ∧ lp64.regSize = 8
      ∧ sizeof lp64 ida_header.header (.named "String") = some 16
      ∧ sizeof lp64 ida_header.header (.named "ArrayAny") = some 16
      ∧ sizeof lp64 ida_header.header (.named "Any") = some 32 :=
  have h := struct_sizes_fill_register_pairs lp64 rfl rfl rfl rfl rfl
  ⟨rfl, rfl, rfl, rfl, rfl, h.2.1, h.2.2.1, h.2.2.2.1⟩
